import Mathlib

/-!
Verification of the api_yamdb HTTP layer (api/views.py) against its design
specification. The data model, the permission predicates and the view handlers
are embedded shallowly; permission and serializer classes that views.py imports
from files not shown are modelled from the specification text and marked so in
their doc comments.
-/

namespace ApiYamdb

/-- Role of an authenticated user: regular, moderator or admin. -/
inductive AuthRole
  | regular
  | moderator
  | admin
  deriving DecidableEq, Repr

/-- Requester of an HTTP request: anonymous, or an authenticated user with an
identity and a role. -/
inductive Requester
  | anonymous
  | user (id : Nat) (role : AuthRole)
  deriving DecidableEq, Repr

/-- HTTP verbs in scope, plus put (excluded at routing level for reviews and
comments via http_method_names). -/
inductive Method
  | get
  | post
  | patch
  | delete
  | put
  deriving DecidableEq, Repr

/-- Safe methods are the read verbs; in this scope only GET. -/
def Method.isSafe : Method → Bool
  | .get => true
  | _ => false

def Requester.isAuthenticated : Requester → Bool
  | .anonymous => false
  | .user _ _ => true

/-- Does the requester hold the given role. Anonymous requesters hold none. -/
def Requester.hasRole (req : Requester) (r : AuthRole) : Bool :=
  match req with
  | .anonymous => false
  | .user _ ρ => ρ == r

/-- Does the requester carry the given identity. Anonymous requesters carry
none. -/
def Requester.isId (req : Requester) (i : Nat) : Bool :=
  match req with
  | .anonymous => false
  | .user j _ => j == i

/-- Resources governed by the access-control policy. -/
inductive Resource
  | review
  | comment
  | title
  | category
  | genre
  | user
  deriving DecidableEq, Repr

/-- Modelled from the spec: the class AdminLevelOrReadOnlyPermission is imported
in views.py from api/permissions.py, which is not among the provided source
files. Spec section 4.1, rules 1 and 4: safe methods are allowed to every
requester; unsafe methods require the admin role. -/
def AdminLevelOrReadOnlyPermission (req : Requester) (m : Method) : Bool :=
  m.isSafe || req.hasRole .admin

/-- Modelled from the spec: the class AdminLevelPermission (api/permissions.py,
not among the provided source files) governs the User collection endpoint
(UserViewSet). Spec section 4.1, rule 1 grants safe methods to every requester
for every resource type in scope; rule 4 restricts unsafe methods on the User
collection endpoint to admins. -/
def AdminLevelPermission (req : Requester) (m : Method) : Bool :=
  m.isSafe || req.hasRole .admin

/-- Modelled from the spec: the class UserAccessPermission (api/permissions.py,
not among the provided source files) guards the personal-info endpoint
(GetPersonalInfoViewSet). Spec section 4.1, rule 1 exception: the personal-info
endpoint requires an authenticated, matching identity. -/
def UserAccessPermission (req : Requester) (targetId : Nat) : Bool :=
  req.isId targetId

/-- Modelled from the spec: the class IsOwnerAdminModeratorOrReadOnly
(api/permissions.py, not among the provided source files) guards ReviewViewSet
and CommentViewSet. Spec section 4.1, rules 1 to 3: safe methods are allowed to
everyone; create is allowed to any authenticated requester; update and delete
are allowed to admins, to moderators, and to the original author. -/
def IsOwnerAdminModeratorOrReadOnly (req : Requester) (m : Method)
    (authorId : Nat) : Bool :=
  if m.isSafe then true
  else if m == .post then req.isAuthenticated
  else req.hasRole .admin || req.hasRole .moderator || req.isId authorId

/-- Access decision as wired in views.py by the permission_classes attributes:
ReviewViewSet and CommentViewSet use IsOwnerAdminModeratorOrReadOnly;
TitleViewSet, CategoryViewSet and GenreViewSet use
AdminLevelOrReadOnlyPermission; UserViewSet uses AdminLevelPermission. The
authorId argument is the author field of the target resource where one exists
and is ignored by the other permission classes. -/
def accessDecision (r : Resource) (req : Requester) (m : Method)
    (authorId : Nat) : Bool :=
  match r with
  | .review => IsOwnerAdminModeratorOrReadOnly req m authorId
  | .comment => IsOwnerAdminModeratorOrReadOnly req m authorId
  | .title => AdminLevelOrReadOnlyPermission req m
  | .category => AdminLevelOrReadOnlyPermission req m
  | .genre => AdminLevelOrReadOnlyPermission req m
  | .user => AdminLevelPermission req m

/-- Transcription of the precedence table of spec section 4.1, evaluated top to
bottom, first match wins: (1) safe methods always allowed; (2) create on Review
or Comment allowed to any authenticated requester; (3) update and delete on
Review or Comment allowed to admin, moderator or the original author; (4)
unsafe methods on Title, Category, Genre and the User collection allowed only
to admins; (5) deny. -/
def specPrecedenceTable (r : Resource) (req : Requester) (m : Method)
    (authorId : Nat) : Bool :=
  if m.isSafe then true
  else if (r == .review || r == .comment) && m == .post then
    req.isAuthenticated
  else if r == .review || r == .comment then
    req.hasRole .admin || req.hasRole .moderator || req.isId authorId
  else if r == .title || r == .category || r == .genre || r == .user then
    req.hasRole .admin
  else false

/-- C1: for every requester (anonymous or any authenticated role), every verb
and every resource in scope, the wired access-control decision equals the
first-matching-rule evaluation of the precedence table of spec section 4.1; in
particular safe methods are allowed to every requester for every resource,
while the personal-info endpoint denies anonymous requesters and admits an
authenticated requester exactly on a matching identity. -/
theorem access_decision_matches_spec_table :
    (∀ r req m a, accessDecision r req m a = specPrecedenceTable r req m a)
    ∧ (∀ r req a, accessDecision r req .get a = true)
    ∧ (∀ t, UserAccessPermission .anonymous t = false)
    ∧ (∀ i ρ t, UserAccessPermission (.user i ρ) t = (i == t)) := by
  refine ⟨?_, ?_, ?_, ?_⟩
  · intro r req m a
    cases r <;> cases m <;> cases req <;> rfl
  · intro r req a
    cases r <;> cases req <;> rfl
  · intro t
    rfl
  · intro i ρ t
    rfl

/-- C2: for every update or delete request on a Review or a Comment, access is
granted exactly when the requester is an admin, a moderator, or the author of
the target; a moderator may delete any Comment regardless of authorship, and a
moderator may not delete a Title, a Category or a Genre. -/
theorem review_comment_update_delete_policy (req : Requester) (m : Method)
    (a : Nat) (hm : m = Method.patch ∨ m = Method.delete) :
    (∀ r, (r = Resource.review ∨ r = Resource.comment) →
      (accessDecision r req m a = true ↔
        req.hasRole .admin = true ∨ req.hasRole .moderator = true ∨
          req.isId a = true))
    ∧ (∀ i, accessDecision .comment (.user i .moderator) .delete a = true)
    ∧ (∀ i r,
        (r = Resource.title ∨ r = Resource.category ∨ r = Resource.genre) →
        accessDecision r (.user i .moderator) .delete a = false) := by
  refine ⟨?_, ?_, ?_⟩
  · intro r hr
    rcases hr with h | h <;> subst h <;> rcases hm with h | h <;> subst h <;>
      cases req <;>
      simp [accessDecision, IsOwnerAdminModeratorOrReadOnly, Method.isSafe,
        Requester.hasRole, Requester.isId, or_assoc]
  · intro i
    rfl
  · intro i r hr
    rcases hr with h | h | h <;> subst h <;> rfl

/-- C2 witness: a moderator with identity 7 may delete a comment authored by
user 3, and may not delete a category. -/
theorem review_comment_update_delete_policy_witness :
    accessDecision .comment (.user 7 .moderator) .delete 3 = true ∧
    accessDecision .category (.user 7 .moderator) .delete 3 = false :=
  ⟨(review_comment_update_delete_policy (.user 7 .moderator) .delete 3
      (Or.inr rfl)).2.1 7,
   (review_comment_update_delete_policy (.user 7 .moderator) .delete 3
      (Or.inr rfl)).2.2 7 .category (Or.inr (Or.inl rfl))⟩

/-- Viewset actions in the sense of rest_framework: list and create on the
collection route, retrieve, update, partUpdate (partial update, the PATCH verb)
and destroy on the detail route. -/
inductive ViewAction
  | list
  | retrieve
  | create
  | update
  | partUpdate
  | destroy
  deriving DecidableEq, Repr

/-- Actions contributed by mixins.CreateModelMixin. -/
def CreateModelMixin.actions : List ViewAction := [.create]

/-- Actions contributed by mixins.ListModelMixin. -/
def ListModelMixin.actions : List ViewAction := [.list]

/-- Actions contributed by mixins.DestroyModelMixin. -/
def DestroyModelMixin.actions : List ViewAction := [.destroy]

/-- Actions contributed by mixins.RetrieveModelMixin. -/
def RetrieveModelMixin.actions : List ViewAction := [.retrieve]

/-- Actions contributed by mixins.UpdateModelMixin: full update (PUT) and
partial update (PATCH). -/
def UpdateModelMixin.actions : List ViewAction := [.update, .partUpdate]

/-- ListCreateDestroyViewSet as declared in views.py: a GenericViewSet composed
with the Create, List and Destroy mixins only. -/
def ListCreateDestroyViewSet.actions : List ViewAction :=
  CreateModelMixin.actions ++ ListModelMixin.actions ++
    DestroyModelMixin.actions

/-- CategoryViewSet subclasses ListCreateDestroyViewSet and adds no actions. -/
def CategoryViewSet.actions : List ViewAction := ListCreateDestroyViewSet.actions

/-- GenreViewSet subclasses ListCreateDestroyViewSet and adds no actions. -/
def GenreViewSet.actions : List ViewAction := ListCreateDestroyViewSet.actions

/-- viewsets.ModelViewSet provides the full action set. -/
def ModelViewSet.actions : List ViewAction :=
  [.list, .retrieve, .create, .update, .partUpdate, .destroy]

/-- GetPersonalInfoViewSet as declared in views.py: a GenericViewSet composed
with the Update and Retrieve mixins. -/
def GetPersonalInfoViewSet.actions : List ViewAction :=
  UpdateModelMixin.actions ++ RetrieveModelMixin.actions

/-- C3 counterexample: the category and genre viewsets provide neither a
retrieve action nor a partial-update action, so GET and PATCH on the slug
detail routes do not exist. -/
theorem category_genre_no_retrieve_no_patch :
    ViewAction.retrieve ∉ CategoryViewSet.actions ∧
    ViewAction.partUpdate ∉ CategoryViewSet.actions ∧
    ViewAction.retrieve ∉ GenreViewSet.actions ∧
    ViewAction.partUpdate ∉ GenreViewSet.actions := by
  decide

/-- C3 amended: the category and genre endpoints support exactly list and
create on the collection route and delete on the slug detail route; reads are
open to every requester and writes require the admin role. -/
theorem category_genre_actions (req : Requester) (m : Method)
    (hm : m ≠ Method.get) :
    CategoryViewSet.actions = [.create, .list, .destroy]
    ∧ GenreViewSet.actions = [.create, .list, .destroy]
    ∧ AdminLevelOrReadOnlyPermission req .get = true
    ∧ (AdminLevelOrReadOnlyPermission req m = true ↔
        req.hasRole .admin = true) := by
  refine ⟨rfl, rfl, ?_, ?_⟩
  · cases req <;> rfl
  · cases m <;> cases req <;>
      simp_all [AdminLevelOrReadOnlyPermission, Method.isSafe,
        Requester.hasRole]

/-- C3 amended witness: an anonymous requester may list categories, and an
admin with identity 1 may create one. -/
theorem category_genre_actions_witness :
    AdminLevelOrReadOnlyPermission .anonymous .get = true ∧
    AdminLevelOrReadOnlyPermission (.user 1 .admin) .post = true :=
  ⟨(category_genre_actions .anonymous .post (by decide)).2.2.1,
   (category_genre_actions (.user 1 .admin) .post (by decide)).2.2.2.mpr
     (by decide)⟩

/-- Error taxonomy of the HTTP layer. -/
inductive ApiError
  | notFound
  | validationFailure
  | authFailure
  deriving DecidableEq, Repr

/-- Catalog item from reviews.models. Only the id matters to the handlers
shown; the name is carried for fidelity. The derived rating is not a stored
field. -/
structure Title where
  id : Nat
  name : String
  deriving DecidableEq, Repr

/-- Review row from reviews.models: belongs to one Title and one authoring
User, and carries a rating value. -/
structure Review where
  id : Nat
  titleId : Nat
  authorId : Nat
  rating : Int
  text : String
  deriving DecidableEq, Repr

/-- Comment row from reviews.models: belongs to one Review and one authoring
User. -/
structure Comment where
  id : Nat
  reviewId : Nat
  authorId : Nat
  text : String
  deriving DecidableEq, Repr

/-- The relational store as the handlers see it. -/
structure Store where
  titles : List Title
  reviews : List Review
  comments : List Comment
  deriving DecidableEq, Repr

/-- get_object_or_404(Title, id=title_id): the first Title with the given id,
or a not-found failure. -/
def getTitleOr404 (s : Store) (titleId : Nat) : Except ApiError Title :=
  match s.titles.find? (fun t => t.id == titleId) with
  | some t => .ok t
  | none => .error .notFound

/-- get_object_or_404(Review, id=review_id, title=title_id): the first Review
matching both the id and the title filter, or a not-found failure. -/
def getReviewOr404 (s : Store) (reviewId titleId : Nat) :
    Except ApiError Review :=
  match s.reviews.find? (fun r => r.id == reviewId && r.titleId == titleId) with
  | some r => .ok r
  | none => .error .notFound

/-- Validated review body. The serializer lives in api/serializers.py, which is
not among the provided source files; the author and title fields record what a
client may try to supply, so that the theorems can show perform_create discards
them. -/
structure ReviewBody where
  text : String
  rating : Int
  author : Option Nat
  title : Option Nat
  deriving DecidableEq, Repr

/-- Validated comment body, analogous to ReviewBody. -/
structure CommentBody where
  text : String
  author : Option Nat
  review : Option Nat
  deriving DecidableEq, Repr

/-- ReviewViewSet.get_queryset from views.py: resolve the Title of the path or
fail not-found, then the reviews of that title. -/
def ReviewViewSet.getQueryset (s : Store) (titleId : Nat) :
    Except ApiError (List Review) :=
  match getTitleOr404 s titleId with
  | .error e => .error e
  | .ok t => .ok (s.reviews.filter (fun r => r.titleId == t.id))

/-- ReviewViewSet.perform_create from views.py: resolve the Title of the path
or fail not-found, then save with author set to the request user and title set
to the resolved title, overriding anything the body carried for those
fields. -/
def ReviewViewSet.performCreate (s : Store) (requesterId titleId : Nat)
    (body : ReviewBody) (newId : Nat) : Except ApiError Review :=
  match getTitleOr404 s titleId with
  | .error e => .error e
  | .ok t =>
      .ok { id := newId, titleId := t.id, authorId := requesterId,
            rating := body.rating, text := body.text }

/-- CommentViewSet.get_queryset from views.py: resolve the Review of the path,
filtered by the Title of the path, or fail not-found, then the comments of
that review. -/
def CommentViewSet.getQueryset (s : Store) (titleId reviewId : Nat) :
    Except ApiError (List Comment) :=
  match getReviewOr404 s reviewId titleId with
  | .error e => .error e
  | .ok r => .ok (s.comments.filter (fun c => c.reviewId == r.id))

/-- CommentViewSet.perform_create from views.py: resolve the Review of the path
filtered by the Title of the path, or fail not-found, then save with author set
to the request user and review set to the resolved review. -/
def CommentViewSet.performCreate (s : Store) (requesterId titleId reviewId : Nat)
    (body : CommentBody) (newId : Nat) : Except ApiError Comment :=
  match getReviewOr404 s reviewId titleId with
  | .error e => .error e
  | .ok r =>
      .ok { id := newId, reviewId := r.id, authorId := requesterId,
            text := body.text }

/-- Rating values of the reviews of a title, the multiset Avg aggregates
over. -/
def titleReviewRatings (s : Store) (titleId : Nat) : List Int :=
  (s.reviews.filter (fun r => r.titleId == titleId)).map (fun r => r.rating)

/-- The Avg annotation of the TitleViewSet queryset: SQL AVG is null over an
empty set and the arithmetic mean otherwise, computed from the review rows at
read time. -/
def avgRating (s : Store) (titleId : Nat) : Option ℚ :=
  let rs := titleReviewRatings s titleId
  if rs.isEmpty then none
  else some ((rs.map (fun z => (z : ℚ))).sum / rs.length)

/-- An annotated title row: the title together with its derived rating. -/
abbrev AnnotatedTitle := Title × Option ℚ

/-- Insert an annotated title into a list kept sorted by descending title id,
the order order_by with a minus prefix requests. -/
def insertByDescId (p : AnnotatedTitle) :
    List AnnotatedTitle → List AnnotatedTitle
  | [] => [p]
  | q :: rest =>
      if q.1.id ≤ p.1.id then p :: q :: rest
      else q :: insertByDescId p rest

/-- Sort annotated titles by descending title id (insertion sort). -/
def sortByDescId (l : List AnnotatedTitle) : List AnnotatedTitle :=
  l.foldr insertByDescId []

/-- TitleViewSet.queryset from views.py: every title, annotated with the
average rating of its reviews, ordered by descending id. -/
def TitleViewSet.queryset (s : Store) : List AnnotatedTitle :=
  sortByDescId (s.titles.map (fun t => (t, avgRating s t.id)))

/-- ReviewViewSet.http_method_names from views.py. -/
def ReviewViewSet.httpMethodNames : List String :=
  ["get", "post", "patch", "delete"]

/-- CommentViewSet.http_method_names from views.py. -/
def CommentViewSet.httpMethodNames : List String :=
  ["get", "post", "patch", "delete"]

/-- C4: a created Review carries the requester as author and the path title as
parent, a created Comment carries the requester as author and the path review
as parent, and the outcome of review creation is independent of any author or
title value the body carried: the client cannot set these fields. -/
theorem create_stamps_author_and_parent (s : Store) (u tid rid nid : Nat)
    (rb : ReviewBody) (cb : CommentBody) :
    (∀ rev, ReviewViewSet.performCreate s u tid rb nid = .ok rev →
      rev.authorId = u ∧ rev.titleId = tid)
    ∧ (∀ c, CommentViewSet.performCreate s u tid rid cb nid = .ok c →
      c.authorId = u ∧ c.reviewId = rid)
    ∧ (∀ rb2 : ReviewBody, rb2.text = rb.text → rb2.rating = rb.rating →
      ReviewViewSet.performCreate s u tid rb2 nid =
        ReviewViewSet.performCreate s u tid rb nid)
    ∧ (∀ cb2 : CommentBody, cb2.text = cb.text →
      CommentViewSet.performCreate s u tid rid cb2 nid =
        CommentViewSet.performCreate s u tid rid cb nid) := by
  refine ⟨?_, ?_, ?_, ?_⟩
  · intro rev h
    cases hf : s.titles.find? (fun t => t.id == tid) with
    | none =>
        simp [ReviewViewSet.performCreate, getTitleOr404, hf] at h
    | some t =>
        have ht : t.id = tid := by
          have := List.find?_some hf
          simpa using this
        simp [ReviewViewSet.performCreate, getTitleOr404, hf] at h
        simp [← h, ht]
  · intro c h
    cases hf : s.reviews.find?
        (fun r => r.id == rid && r.titleId == tid) with
    | none =>
        simp [CommentViewSet.performCreate, getReviewOr404, hf] at h
    | some r =>
        have hr : r.id = rid ∧ r.titleId = tid := by
          have := List.find?_some hf
          simpa using this
        simp [CommentViewSet.performCreate, getReviewOr404, hf] at h
        simp [← h, hr.1]
  · intro rb2 h1 h2
    simp [ReviewViewSet.performCreate, h1, h2]
  · intro cb2 h1
    simp [CommentViewSet.performCreate, h1]

/-- C4 witness: with a one-title store, creating a review as user 9 under title
1 stamps author 9 and title 1 even though the body claims author 42 and title
77. -/
theorem create_stamps_author_and_parent_witness :
    ({ id := 10, titleId := 1, authorId := 9, rating := 3,
       text := "x" } : Review).authorId = 9 ∧
    ({ id := 10, titleId := 1, authorId := 9, rating := 3,
       text := "x" } : Review).titleId = 1 :=
  (create_stamps_author_and_parent
    { titles := [{ id := 1, name := "t" }],
      reviews := [{ id := 2, titleId := 1, authorId := 5, rating := 4,
                    text := "r" }],
      comments := [] }
    9 1 2 10
    { text := "x", rating := 3, author := some 42, title := some 77 }
    { text := "y", author := some 42, review := some 77 }).1
    { id := 10, titleId := 1, authorId := 9, rating := 3, text := "x" } rfl

/-- C5: when no stored Review has both the id named in the path and the title
named in the path, listing comments and creating a comment under that
(title id, review id) pair both fail with not-found, not with a mismatch or
validation error. -/
theorem mismatched_review_not_found (s : Store) (tid rid u nid : Nat)
    (cb : CommentBody)
    (h : ∀ r ∈ s.reviews, r.id = rid → r.titleId ≠ tid) :
    CommentViewSet.getQueryset s tid rid = .error .notFound
    ∧ CommentViewSet.performCreate s u tid rid cb nid =
        .error .notFound := by
  have hf : s.reviews.find? (fun r => r.id == rid && r.titleId == tid)
      = none := by
    rw [List.find?_eq_none]
    intro r hr
    have := h r hr
    simp only [Bool.and_eq_true, beq_iff_eq, not_and]
    intro h1
    exact fun h2 => this h1 h2
  constructor
  · simp [CommentViewSet.getQueryset, getReviewOr404, hf]
  · simp [CommentViewSet.performCreate, getReviewOr404, hf]

/-- C5 witness: review 2 belongs to title 1, so naming it under title 5 makes
both the comment list and comment creation return not-found. -/
theorem mismatched_review_not_found_witness :
    CommentViewSet.getQueryset
      { titles := [{ id := 1, name := "t" }, { id := 5, name := "u" }],
        reviews := [{ id := 2, titleId := 1, authorId := 5, rating := 4,
                      text := "r" }],
        comments := [] } 5 2 = .error .notFound ∧
    CommentViewSet.performCreate
      { titles := [{ id := 1, name := "t" }, { id := 5, name := "u" }],
        reviews := [{ id := 2, titleId := 1, authorId := 5, rating := 4,
                      text := "r" }],
        comments := [] } 9 5 2
      { text := "y", author := none, review := none } 10 =
        .error .notFound :=
  mismatched_review_not_found
    { titles := [{ id := 1, name := "t" }, { id := 5, name := "u" }],
      reviews := [{ id := 2, titleId := 1, authorId := 5, rating := 4,
                    text := "r" }],
      comments := [] } 5 2 9 10
    { text := "y", author := none, review := none } (by decide)

/-- C9: the Review and Comment endpoints accept exactly the verbs GET, POST,
PATCH and DELETE; full replace (PUT) is excluded and partial update (PATCH) is
available. -/
theorem review_comment_http_methods :
    ReviewViewSet.httpMethodNames = ["get", "post", "patch", "delete"]
    ∧ CommentViewSet.httpMethodNames = ["get", "post", "patch", "delete"]
    ∧ "put" ∉ ReviewViewSet.httpMethodNames
    ∧ "put" ∉ CommentViewSet.httpMethodNames
    ∧ "patch" ∈ ReviewViewSet.httpMethodNames
    ∧ "patch" ∈ CommentViewSet.httpMethodNames := by
  refine ⟨rfl, rfl, by decide, by decide, by decide, by decide⟩

/-- Membership through insertion is membership in the extended list. -/
lemma mem_insertByDescId (p q : AnnotatedTitle) (l : List AnnotatedTitle) :
    q ∈ insertByDescId p l ↔ q = p ∨ q ∈ l := by
  induction l with
  | nil => simp [insertByDescId]
  | cons x xs ih =>
      by_cases h : x.1.id ≤ p.1.id
      · simp [insertByDescId, h]
      · simp [insertByDescId, h, ih]
        tauto

/-- Insertion is a permutation of consing. -/
lemma insertByDescId_perm (p : AnnotatedTitle) (l : List AnnotatedTitle) :
    (insertByDescId p l).Perm (p :: l) := by
  induction l with
  | nil => simp [insertByDescId]
  | cons x xs ih =>
      by_cases h : x.1.id ≤ p.1.id
      · simp [insertByDescId, h]
      · simp only [insertByDescId, if_neg h]
        exact ((ih.cons x).trans (List.Perm.swap p x xs))

/-- Sorting by descending id permutes the input. -/
lemma sortByDescId_perm (l : List AnnotatedTitle) :
    (sortByDescId l).Perm l := by
  induction l with
  | nil => rfl
  | cons x xs ih =>
      exact (insertByDescId_perm x (sortByDescId xs)).trans (ih.cons x)

/-- Insertion preserves the descending-id pairwise order. -/
lemma pairwise_insertByDescId (p : AnnotatedTitle) (l : List AnnotatedTitle)
    (h : l.Pairwise (fun a b => b.1.id ≤ a.1.id)) :
    (insertByDescId p l).Pairwise (fun a b => b.1.id ≤ a.1.id) := by
  induction l with
  | nil => simp [insertByDescId]
  | cons x xs ih =>
      rcases List.pairwise_cons.mp h with ⟨hx, hxs⟩
      by_cases hle : x.1.id ≤ p.1.id
      · simp only [insertByDescId, if_pos hle]
        refine List.pairwise_cons.mpr ⟨?_, h⟩
        intro q hq
        rcases List.mem_cons.mp hq with rfl | hq
        · exact hle
        · exact le_trans (hx q hq) hle
      · simp only [insertByDescId, if_neg hle]
        refine List.pairwise_cons.mpr ⟨?_, ih hxs⟩
        intro q hq
        rcases (mem_insertByDescId p q xs).mp hq with rfl | hq
        · exact le_of_not_le hle
        · exact hx q hq

/-- The output of sortByDescId is pairwise descending in id. -/
lemma pairwise_sortByDescId (l : List AnnotatedTitle) :
    (sortByDescId l).Pairwise (fun a b => b.1.id ≤ a.1.id) := by
  induction l with
  | nil => simp [sortByDescId]
  | cons x xs ih => exact pairwise_insertByDescId x (sortByDescId xs) ih

/-- Arithmetic mean per the wording of the spec: undefined for an empty list,
otherwise the sum divided by the length. -/
def arithmeticMean (xs : List Int) : Option ℚ :=
  match xs with
  | [] => none
  | _ :: _ => some ((xs.map (fun z => (z : ℚ))).sum / xs.length)

/-- The Avg annotation agrees with the arithmetic mean of the rating list: it
is none exactly on an empty rating list, and a defined value times the count
equals the sum. -/
lemma avgRating_spec (s : Store) (tid : Nat) :
    avgRating s tid = arithmeticMean (titleReviewRatings s tid)
    ∧ (titleReviewRatings s tid = [] → avgRating s tid = none)
    ∧ ∀ x, avgRating s tid = some x →
        x * (titleReviewRatings s tid).length =
          ((titleReviewRatings s tid).map (fun z => (z : ℚ))).sum := by
  cases hr : titleReviewRatings s tid with
  | nil =>
      refine ⟨?_, fun _ => ?_, ?_⟩
      · unfold avgRating arithmeticMean
        rw [hr]
        rfl
      · unfold avgRating
        rw [hr]
        rfl
      · intro x hx
        unfold avgRating at hx
        rw [hr] at hx
        cases hx
  | cons a as =>
      have hval : avgRating s tid =
          some ((((a :: as).map (fun z => (z : ℚ))).sum) /
            ((a :: as).length : ℚ)) := by
        unfold avgRating
        rw [hr]
        rfl
      refine ⟨?_, ?_, ?_⟩
      · rw [hval]
        unfold arithmeticMean
        rfl
      · intro h0
        exact absurd h0 (List.cons_ne_nil a as)
      · intro x hx
        rw [hval] at hx
        have hx2 : x = (((a :: as).map (fun z => (z : ℚ))).sum) /
            ((a :: as).length : ℚ) := (Option.some.injEq _ _ ▸ hx).symm
        have hlen : (((a :: as).length : Nat) : ℚ) ≠ 0 := by
          rw [Nat.cast_ne_zero, List.length_cons]
          exact Nat.succ_ne_zero as.length
        rw [hx2, div_mul_cancel₀ _ hlen]

/-- C6: every rating exposed in the title list equals the arithmetic mean of
the rating values of the reviews of that title, computed from the review rows
at read time; a title with no reviews exposes null (none), not zero, and a
defined rating times the review count equals the rating sum. -/
theorem title_rating_is_mean (s : Store) (t : Title) (q : Option ℚ)
    (h : (t, q) ∈ TitleViewSet.queryset s) :
    q = arithmeticMean (titleReviewRatings s t.id)
    ∧ (titleReviewRatings s t.id = [] → q = none)
    ∧ ∀ x, q = some x →
        x * (titleReviewRatings s t.id).length =
          ((titleReviewRatings s t.id).map (fun z => (z : ℚ))).sum := by
  have hmem : (t, q) ∈ s.titles.map (fun x => (x, avgRating s x.id)) :=
    (sortByDescId_perm _).mem_iff.mp h
  rcases List.mem_map.mp hmem with ⟨t2, -, heq⟩
  have ht2 : t2 = t := congrArg Prod.fst heq
  have hq : avgRating s t.id = q := by
    rw [← ht2]
    exact congrArg Prod.snd heq
  rw [← hq]
  exact avgRating_spec s t.id

/-- C6 witness: in a store with one title and no reviews, the title list
exposes rating none for that title, which the theorem equates with the mean of
an empty rating list. -/
theorem title_rating_is_mean_witness :
    (none : Option ℚ) = arithmeticMean (titleReviewRatings
      { titles := [{ id := 1, name := "t" }], reviews := [],
        comments := [] } 1) :=
  (title_rating_is_mean
    { titles := [{ id := 1, name := "t" }], reviews := [], comments := [] }
    { id := 1, name := "t" } none (by simp [TitleViewSet.queryset,
      sortByDescId, insertByDescId, avgRating, titleReviewRatings])).1

/-- C10: for every state of the store, the title list is ordered by descending
title id, and its titles are a permutation of the stored titles. -/
theorem title_list_descending_order (s : Store) :
    (TitleViewSet.queryset s).Pairwise (fun a b => b.1.id ≤ a.1.id)
    ∧ ((TitleViewSet.queryset s).map Prod.fst).Perm s.titles := by
  constructor
  · exact pairwise_sortByDescId _
  · have h1 : ((TitleViewSet.queryset s).map Prod.fst).Perm
        ((s.titles.map (fun t => (t, avgRating s t.id))).map Prod.fst) :=
      (sortByDescId_perm _).map Prod.fst
    have h2 : (s.titles.map (fun t => (t, avgRating s t.id))).map Prod.fst
        = s.titles := by
      rw [List.map_map]
      have hcomp : (Prod.fst ∘ fun t : Title => (t, avgRating s t.id)) = id := by
        funext t
        rfl
      rw [hcomp, List.map_id]
    rw [h2] at h1
    exact h1

/-- User row from reviews.models: identity, unique username and email, role, a
transient confirmation code, and whether the identity has been confirmed
(token already issued for its code). -/
structure User where
  id : Nat
  username : String
  email : String
  role : AuthRole
  confirmationCode : String
  confirmed : Bool
  deriving DecidableEq, Repr

/-- The user table. -/
structure AuthStore where
  users : List User
  deriving DecidableEq, Repr

/-- Signed session token issued by the external token collaborator
(SlidingToken.for_user), modelled by the identity it is signed for. -/
structure Token where
  subjectId : Nat
  subjectUsername : String
  deriving DecidableEq, Repr

/-- Modelled from the spec: GetJWTTokenSerializer lives in api/serializers.py,
which is not among the provided source files. Spec section 4.3: token issuance
accepts (username, confirmation code); it must not succeed for an unknown
username, must fail on a wrong or already used (single-use) code, and on
mismatch must fail without revealing which of username or code was wrong, so
both failures are one generic validation failure. -/
def GetJWTTokenSerializer.validate (s : AuthStore) (username code : String) :
    Except ApiError User :=
  match s.users.find? (fun u => u.username == username) with
  | none => .error .validationFailure
  | some u =>
      if u.confirmationCode == code && !u.confirmed then .ok u
      else .error .validationFailure

/-- CustomJWTTokenView.post from views.py: validate the request body with the
serializer, look the user up by the username of the request, and answer with a
sliding token for that user. -/
def CustomJWTTokenView.post (s : AuthStore) (username code : String) :
    Except ApiError Token :=
  match GetJWTTokenSerializer.validate s username code with
  | .error e => .error e
  | .ok _ =>
      match s.users.find? (fun u => u.username == username) with
      | some u => .ok { subjectId := u.id, subjectUsername := u.username }
      | none => .error .notFound

/-- Modelled from the spec: CreateUserSerializer lives in api/serializers.py,
which is not among the provided source files. Spec section 4.3: registration
creates or reuses a pending User record and generates a single-use
confirmation code; re-registration with an existing but unconfirmed username
reissues a new code rather than erroring; a clash with a confirmed identity or
a different email is a validation failure. The newCode and newId arguments
stand for the generated code and the fresh row id. -/
def CreateUserSerializer.save (s : AuthStore) (username email newCode : String)
    (newId : Nat) : Except ApiError (AuthStore × User) :=
  match s.users.find? (fun u => u.username == username) with
  | none =>
      let u : User :=
        { id := newId, username := username, email := email,
          role := .regular, confirmationCode := newCode, confirmed := false }
      .ok ({ users := u :: s.users }, u)
  | some u =>
      if u.email == email && !u.confirmed then
        let u2 : User := { u with confirmationCode := newCode }
        .ok ({ users :=
                 s.users.map (fun x => if x.username == username then u2 else x) },
             u2)
      else .error .validationFailure

/-- RegisterNewUserAPIView.post from views.py: run the serializer and save,
read the confirmation code off the saved user, and send it by email to the
user. Returns the new store and the emailed code. -/
def RegisterNewUserAPIView.post (s : AuthStore) (username email newCode : String)
    (newId : Nat) : Except ApiError (AuthStore × String) :=
  match CreateUserSerializer.save s username email newCode newId with
  | .error e => .error e
  | .ok (s2, u) => .ok (s2, u.confirmationCode)

/-- C7: for a stored unconfirmed user, token issuance succeeds with a token
signed for that user given the right confirmation code; it fails with a wrong
code, fails for an unknown username, issues no token in either failure, and
the two failure responses are the same value, revealing nothing about which
part was wrong. -/
theorem token_issuance_outcomes (s : AuthStore) (u : User)
    (wrong unknown : String)
    (hu : s.users.find? (fun x => x.username == u.username) = some u)
    (hconf : u.confirmed = false)
    (hw : wrong ≠ u.confirmationCode)
    (hunk : s.users.find? (fun x => x.username == unknown) = none) :
    CustomJWTTokenView.post s u.username u.confirmationCode =
      .ok { subjectId := u.id, subjectUsername := u.username }
    ∧ CustomJWTTokenView.post s u.username wrong = .error .validationFailure
    ∧ CustomJWTTokenView.post s unknown u.confirmationCode =
        .error .validationFailure
    ∧ CustomJWTTokenView.post s u.username wrong =
        CustomJWTTokenView.post s unknown u.confirmationCode := by
  have hw2 : (u.confirmationCode == wrong) = false := by
    simp [Ne.symm hw]
  refine ⟨?_, ?_, ?_, ?_⟩
  · simp [CustomJWTTokenView.post, GetJWTTokenSerializer.validate, hu, hconf]
  · simp [CustomJWTTokenView.post, GetJWTTokenSerializer.validate, hu, hw2]
  · simp [CustomJWTTokenView.post, GetJWTTokenSerializer.validate, hunk]
  · simp [CustomJWTTokenView.post, GetJWTTokenSerializer.validate, hu, hw2,
      hunk]

/-- C7 witness: a store holding the unconfirmed user alice with code 1234
issues a token exactly for the right pairing and fails identically for a wrong
code and for an unknown username. -/
theorem token_issuance_outcomes_witness :
    CustomJWTTokenView.post
      { users := [{ id := 1, username := "alice", email := "a@b.c",
                    role := .regular, confirmationCode := "1234",
                    confirmed := false }] } "alice" "1234" =
      .ok { subjectId := 1, subjectUsername := "alice" } ∧
    CustomJWTTokenView.post
      { users := [{ id := 1, username := "alice", email := "a@b.c",
                    role := .regular, confirmationCode := "1234",
                    confirmed := false }] } "alice" "9999" =
      .error .validationFailure ∧
    CustomJWTTokenView.post
      { users := [{ id := 1, username := "alice", email := "a@b.c",
                    role := .regular, confirmationCode := "1234",
                    confirmed := false }] } "bob" "1234" =
      .error .validationFailure := by
  have h := token_issuance_outcomes
    { users := [{ id := 1, username := "alice", email := "a@b.c",
                  role := .regular, confirmationCode := "1234",
                  confirmed := false }] }
    { id := 1, username := "alice", email := "a@b.c", role := .regular,
      confirmationCode := "1234", confirmed := false }
    "9999" "bob" (by decide) rfl (by decide) (by decide)
  exact ⟨h.1, h.2.1, h.2.2.1⟩

/-- C8: starting from a store without the username, registering succeeds and
emails the generated code, registering again with the same username and email
succeeds as well and emails the newly generated code, and that second code is
usable: token issuance with it succeeds for the registered identity. -/
theorem registration_idempotent_on_unconfirmed (s : AuthStore)
    (username email c1 c2 : String) (i1 i2 : Nat)
    (hfresh : s.users.find? (fun u => u.username == username) = none) :
    ∃ s1 s2,
      RegisterNewUserAPIView.post s username email c1 i1 = .ok (s1, c1)
      ∧ RegisterNewUserAPIView.post s1 username email c2 i2 = .ok (s2, c2)
      ∧ CustomJWTTokenView.post s2 username c2 =
          .ok { subjectId := i1, subjectUsername := username } := by
  refine
    ⟨{ users := { id := i1, username := username, email := email,
                  role := .regular, confirmationCode := c1,
                  confirmed := false } :: s.users },
     { users := { id := i1, username := username, email := email,
                  role := .regular, confirmationCode := c2,
                  confirmed := false }
                :: s.users.map (fun x =>
                  if x.username == username then
                    { id := i1, username := username, email := email,
                      role := .regular, confirmationCode := c2,
                      confirmed := false }
                  else x) },
     ?_, ?_, ?_⟩
  · simp [RegisterNewUserAPIView.post, CreateUserSerializer.save, hfresh]
  · simp [RegisterNewUserAPIView.post, CreateUserSerializer.save,
      List.find?_cons]
  · simp [CustomJWTTokenView.post, GetJWTTokenSerializer.validate,
      List.find?_cons]

/-- C8 witness: registering alice twice in an empty store succeeds both times
and the second code 5678 then buys a token for alice. -/
theorem registration_idempotent_on_unconfirmed_witness :
    ∃ s1 s2,
      RegisterNewUserAPIView.post { users := [] } "alice" "a@b.c" "1234" 1 =
        .ok (s1, "1234")
      ∧ RegisterNewUserAPIView.post s1 "alice" "a@b.c" "5678" 2 =
        .ok (s2, "5678")
      ∧ CustomJWTTokenView.post s2 "alice" "5678" =
          .ok { subjectId := 1, subjectUsername := "alice" } :=
  registration_idempotent_on_unconfirmed { users := [] }
    "alice" "a@b.c" "1234" "5678" 1 2 rfl

end ApiYamdb
